import Mathlib

/-!
Verification of the heim macOS process module
(`heim-process/src/sys/macos/process/mod.rs`) against its specification.

The module is embedded shallowly: the external OS collaborators
(`bindings::process`, `darwin_libproc::pid_path` / `pid_cwd` / `task_info`,
the pid enumerator and the `getpid` self-lookup) are gathered into an
`OsEnv` record of oracles, and each accessor of `Process` is a pure
function of that environment, returning `Except ProcessError α` in place
of the `impl Future<Output = ProcessResult<α>>` of the source (each such
future is immediately ready, built with `future::ok` / `future::err`).
-/

namespace Heim

/-- Platform process identifier (`libc::pid_t`, a signed 32-bit integer in
the source; no arithmetic is performed on it, so `Int` embeds it). -/
abbrev Pid := Int

/-- `heim_common::units::Time`, the target of `IntoTime`; embedded as a
count of microseconds. -/
abbrev Time := Int

/-- `libc::timeval`, the type of `kp_proc.p_un.p_starttime`. -/
structure Timeval where
  tv_sec : Int
  tv_usec : Int
deriving DecidableEq, Repr

/-- Modelled from the spec: the units/time conversion collaborator
(`IntoTime` from `heim_common::sys`), which turns the raw platform time
record into a `Time` value.  Seconds and microseconds are combined into
microseconds. -/
def Timeval.into_time (tv : Timeval) : Time :=
  tv.tv_sec * 1000000 + tv.tv_usec

/-- Modelled from the spec: the raw OS error surfaced by the collaborator
calls.  The classifier distinguishes exactly three kinds of raw error:
"no matching record found", permission denied, and everything else
(carried as a raw code). -/
inductive OsError where
  | noSuchRecord : OsError
  | permissionDenied : OsError
  | other : Nat → OsError
deriving DecidableEq, Repr

/-- The `ProcessError` taxonomy of the crate: `NoSuchProcess(pid)`,
`ZombieProcess(pid)`, `AccessDenied(pid)`, `Incompatible(pid)`,
`Other(raw cause)`. -/
inductive ProcessError where
  | NoSuchProcess : Pid → ProcessError
  | ZombieProcess : Pid → ProcessError
  | AccessDenied : Pid → ProcessError
  | Incompatible : Pid → ProcessError
  | Other : Nat → ProcessError
deriving DecidableEq, Repr

/-- `ProcessResult<T> = Result<T, ProcessError>`. -/
abbrev ProcessResult (α : Type) := Except ProcessError α

/-- The `kp_proc` part of a raw `kinfo_proc` record: the fixed-width
NUL-terminated short-name buffer `p_comm`, the raw state code `p_stat`,
and the `p_un.p_starttime` union field. -/
structure KProc where
  p_comm : List Nat
  p_stat : Nat
  p_starttime : Timeval
deriving DecidableEq, Repr

/-- The `kp_eproc` part of a raw `kinfo_proc` record. -/
structure EProc where
  e_ppid : Pid
deriving DecidableEq, Repr

/-- The raw fixed-layout process record returned by `bindings::process`. -/
structure KinfoProc where
  kp_proc : KProc
  kp_eproc : EProc
deriving DecidableEq, Repr

/-- The raw task-accounting record returned by
`darwin_libproc::task_info`: CPU user/system time and memory size fields
in platform-native units. -/
structure TaskInfo where
  pti_total_user : Nat
  pti_total_system : Nat
  pti_resident_size : Nat
  pti_virtual_size : Nat
deriving DecidableEq, Repr

/-- Modelled from the spec: `CpuTime` (module `cpu_times`, not under
`src/`) derives the user/system time fields of the raw task-accounting
record. -/
structure CpuTime where
  user : Nat
  system : Nat
deriving DecidableEq, Repr

/-- Modelled from the spec: `CpuTime::from(task_info)`. -/
def CpuTime.from_task (t : TaskInfo) : CpuTime :=
  { user := t.pti_total_user, system := t.pti_total_system }

/-- Modelled from the spec: `Memory` (module `memory`, not under `src/`)
derives the resident/virtual size fields of the raw task-accounting
record. -/
structure Memory where
  rss : Nat
  vms : Nat
deriving DecidableEq, Repr

/-- Modelled from the spec: `Memory::from(task_info)`. -/
def Memory.from_task (t : TaskInfo) : Memory :=
  { rss := t.pti_resident_size, vms := t.pti_virtual_size }

/-- Modelled from the spec: the closed enumeration of known process
states (`crate::Status`, not under `src/`); on macOS the raw `p_stat`
codes are SIDL=1, SRUN=2, SSLEEP=3, SSTOP=4, SZOMB=5. -/
inductive Status where
  | idle : Status
  | running : Status
  | sleeping : Status
  | stopped : Status
  | zombie : Status
deriving DecidableEq, Repr

/-- Modelled from the spec: `Status::try_from` maps the raw process-state
code into the closed enumeration of known states and rejects any value
outside it, returning the offending raw value. -/
def Status.try_from (s : Nat) : Except Nat Status :=
  match s with
  | 1 => Except.ok Status.idle
  | 2 => Except.ok Status.running
  | 3 => Except.ok Status.sleeping
  | 4 => Except.ok Status.stopped
  | 5 => Except.ok Status.zombie
  | s => Except.error s

/-- The collaborator environment: one oracle per raw OS entry point, plus
the pid set produced by the enumerator at call time and the result of the
secondary existence probe used by the classifier. -/
structure OsEnv where
  /-- `bindings::process(pid)`: raw record fetch. -/
  process : Pid → Except OsError KinfoProc
  /-- `darwin_libproc::pid_path(pid)`: executable path lookup. -/
  pid_path : Pid → Except OsError String
  /-- `darwin_libproc::pid_cwd(pid)`: working-directory lookup. -/
  pid_cwd : Pid → Except OsError String
  /-- `darwin_libproc::task_info(pid)`: task-accounting fetch. -/
  task_info : Pid → Except OsError TaskInfo
  /-- Modelled from the spec: the sequence of pids produced by the Pid
  Enumerator (`pids()`, not under `src/`) at call time. -/
  pids : List Pid
  /-- Modelled from the spec: the secondary, cheaper existence probe used
  by the classifier (inside `utils::catch_zombie`, not under `src/`);
  `true` when the pid is still present in the OS process table. -/
  probe : Pid → Bool
  /-- `libc::getpid()`: the caller's own process identifier. -/
  getpid : Pid

/-- Modelled from the spec: the Zombie/Error Classifier
(`utils::catch_zombie`, not under `src/`).  A "no matching record" error
triggers the secondary existence probe: still present classifies as
`ZombieProcess(pid)`, no trace as `NoSuchProcess(pid)`; permission-denied
codes map to `AccessDenied(pid)`; any other raw code maps to
`Other(raw cause)`. -/
def catch_zombie (env : OsEnv) (e : OsError) (pid : Pid) : ProcessError :=
  match e with
  | OsError.noSuchRecord =>
      if env.probe pid then ProcessError.ZombieProcess pid
      else ProcessError.NoSuchProcess pid
  | OsError.permissionDenied => ProcessError.AccessDenied pid
  | OsError.other code => ProcessError.Other code

/-- The process handle: immutable identity `{pid, create_time}`. -/
structure Process where
  pid : Pid
  create_time : Time
deriving DecidableEq, Repr

/-- `CStr::from_ptr` over the fixed-width buffer: the byte content up to
the first NUL terminator. -/
def cstr_from_buf (buf : List Nat) : List Nat :=
  buf.takeWhile (fun b => b ≠ 0)

/-- A UTF-8 continuation byte (`0x80..=0xBF`). -/
def utf8_cont (b : Nat) : Bool :=
  0x80 ≤ b ∧ b ≤ 0xBF

/-- Modelled from the spec: one step of the lossy UTF-8 decoder backing
`to_string_lossy` (Rust standard library, an external collaborator).
Given the first byte and the remaining bytes, returns the decoded
character — the replacement character U+FFFD for invalid content — and
how many of the remaining bytes were consumed. -/
def utf8_step (b : Nat) (rest : List Nat) : Char × Nat :=
  if b ≤ 0x7F then (Char.ofNat b, 0)
  else if 0xC2 ≤ b ∧ b ≤ 0xDF then
    (match rest with
     | b1 :: _ =>
         if utf8_cont b1 then
           (Char.ofNat ((b - 0xC0) * 0x40 + (b1 - 0x80)), 1)
         else (Char.ofNat 0xFFFD, 0)
     | [] => (Char.ofNat 0xFFFD, 0))
  else if 0xE0 ≤ b ∧ b ≤ 0xEF then
    (match rest with
     | b1 :: rest1 =>
         let ok1 : Bool :=
           if b = 0xE0 then 0xA0 ≤ b1 ∧ b1 ≤ 0xBF
           else if b = 0xED then 0x80 ≤ b1 ∧ b1 ≤ 0x9F
           else utf8_cont b1
         if ok1 then
           (match rest1 with
            | b2 :: _ =>
                if utf8_cont b2 then
                  (Char.ofNat ((b - 0xE0) * 0x1000 + (b1 - 0x80) * 0x40
                    + (b2 - 0x80)), 2)
                else (Char.ofNat 0xFFFD, 1)
            | [] => (Char.ofNat 0xFFFD, 1))
         else (Char.ofNat 0xFFFD, 0)
     | [] => (Char.ofNat 0xFFFD, 0))
  else if 0xF0 ≤ b ∧ b ≤ 0xF4 then
    (match rest with
     | b1 :: rest1 =>
         let ok1 : Bool :=
           if b = 0xF0 then 0x90 ≤ b1 ∧ b1 ≤ 0xBF
           else if b = 0xF4 then 0x80 ≤ b1 ∧ b1 ≤ 0x8F
           else utf8_cont b1
         if ok1 then
           (match rest1 with
            | b2 :: rest2 =>
                if utf8_cont b2 then
                  (match rest2 with
                   | b3 :: _ =>
                       if utf8_cont b3 then
                         (Char.ofNat ((b - 0xF0) * 0x40000
                           + (b1 - 0x80) * 0x1000
                           + (b2 - 0x80) * 0x40 + (b3 - 0x80)), 3)
                       else (Char.ofNat 0xFFFD, 2)
                   | [] => (Char.ofNat 0xFFFD, 2))
                else (Char.ofNat 0xFFFD, 1)
            | [] => (Char.ofNat 0xFFFD, 1))
         else (Char.ofNat 0xFFFD, 0)
     | [] => (Char.ofNat 0xFFFD, 0))
  else (Char.ofNat 0xFFFD, 0)

/-- Modelled from the spec: the lossy UTF-8 decoding performed by
`to_string_lossy` (Rust standard library, an external collaborator) —
total on every byte sequence, substituting the replacement character for
any invalid byte content. -/
def utf8_lossy : List Nat → List Char
  | [] => []
  | b :: rest =>
      (utf8_step b rest).1 :: utf8_lossy (rest.drop (utf8_step b rest).2)
termination_by l => l.length
decreasing_by
  simp only [List.length_cons, List.length_drop]
  omega

/-- `Process::pid` (lines 25–27): returns the stored identifier; takes no
oracle, performs no OS call. -/
def Process.pid_acc (self : Process) : Pid :=
  self.pid

/-- `Process::create_time` (lines 74–76): `future::ok(self.create_time)`;
takes no oracle, performs no OS call, never fails. -/
def Process.create_time_acc (self : Process) : ProcessResult Time :=
  Except.ok self.create_time

/-- `Process::parent_pid` (lines 29–34). -/
def Process.parent_pid (env : OsEnv) (self : Process) : ProcessResult Pid :=
  match env.process self.pid with
  | Except.ok kinfo_proc => Except.ok kinfo_proc.kp_eproc.e_ppid
  | Except.error e => Except.error (catch_zombie env e self.pid)

/-- `Process::name` (lines 36–48): fetches the raw record, reads the
NUL-terminated `p_comm` buffer and converts it with `to_string_lossy`. -/
def Process.name (env : OsEnv) (self : Process) : ProcessResult (List Char) :=
  match env.process self.pid with
  | Except.ok kinfo_proc =>
      Except.ok (utf8_lossy (cstr_from_buf kinfo_proc.kp_proc.p_comm))
  | Except.error e => Except.error (catch_zombie env e self.pid)

/-- `Process::exe` (lines 50–56): calls `darwin_libproc::pid_path`; on
`Ok(path)` returns the path; on `Err(..)` with `self.pid == 0` fails with
`AccessDenied(self.pid)`; any other error runs the classifier. -/
def Process.exe (env : OsEnv) (self : Process) : ProcessResult String :=
  match env.pid_path self.pid with
  | Except.ok path => Except.ok path
  | Except.error e =>
      if self.pid = 0 then Except.error (ProcessError.AccessDenied self.pid)
      else Except.error (catch_zombie env e self.pid)

/-- `Process::cwd` (lines 58–63). -/
def Process.cwd (env : OsEnv) (self : Process) : ProcessResult String :=
  match env.pid_cwd self.pid with
  | Except.ok path => Except.ok path
  | Except.error e => Except.error (catch_zombie env e self.pid)

/-- `Process::status` (lines 65–72): fetches the raw record and maps its
`p_stat` field through `Status::try_from`; the conversion error becomes
`Incompatible(self.pid)` (the `map_err(From::from)` of the source,
modelled from the spec since the `From` impl is not under `src/`). -/
def Process.status (env : OsEnv) (self : Process) : ProcessResult Status :=
  match env.process self.pid with
  | Except.ok kinfo_proc =>
      match Status.try_from kinfo_proc.kp_proc.p_stat with
      | Except.ok s => Except.ok s
      | Except.error _ => Except.error (ProcessError.Incompatible self.pid)
  | Except.error e => Except.error (catch_zombie env e self.pid)

/-- `Process::cpu_time` (lines 78–83). -/
def Process.cpu_time (env : OsEnv) (self : Process) : ProcessResult CpuTime :=
  match env.task_info self.pid with
  | Except.ok task_info => Except.ok (CpuTime.from_task task_info)
  | Except.error e => Except.error (catch_zombie env e self.pid)

/-- `Process::memory` (lines 85–90). -/
def Process.memory (env : OsEnv) (self : Process) : ProcessResult Memory :=
  match env.task_info self.pid with
  | Except.ok task_info => Except.ok (Memory.from_task task_info)
  | Except.error e => Except.error (catch_zombie env e self.pid)

/-- `get` (lines 99–115): fetches the raw record; on success captures
`kp_proc.p_un.p_starttime` (converted by `into_time`) and returns the new
handle; on failure runs the classifier. -/
def get (env : OsEnv) (pid : Pid) : ProcessResult Process :=
  match env.process pid with
  | Except.ok kinfo_proc =>
      Except.ok { pid := pid,
                  create_time := kinfo_proc.kp_proc.p_starttime.into_time }
  | Except.error e => Except.error (catch_zombie env e pid)

/-- `processes` (lines 93–97): for each pid yielded by the enumerator,
`and_then(get)` — one item per pid, independently `Ok`/`Err`. -/
def processes (env : OsEnv) : List (ProcessResult Process) :=
  env.pids.map (fun pid => get env pid)

/-- `current` (lines 117–124): resolves `libc::getpid()` and delegates to
`get`. -/
def current (env : OsEnv) : ProcessResult Process :=
  get env env.getpid

/-! Concrete collaborator behaviours used to instantiate the theorems. -/

/-- A sample raw record: short name `"heim"`, state SRUN, start time
100 s + 5 µs, parent pid 1. -/
def sampleRecord : KinfoProc :=
  { kp_proc := { p_comm := [104, 101, 105, 109, 0, 0],
                 p_stat := 2,
                 p_starttime := { tv_sec := 100, tv_usec := 5 } },
    kp_eproc := { e_ppid := 1 } }

/-- The creation timestamp captured from `sampleRecord`. -/
def sampleTime : Time :=
  sampleRecord.kp_proc.p_starttime.into_time

/-- A sample raw record whose start-time field is entirely zero
(unpopulated). -/
def zeroRecord : KinfoProc :=
  { kp_proc := { p_comm := [107, 0],
                 p_stat := 5,
                 p_starttime := { tv_sec := 0, tv_usec := 0 } },
    kp_eproc := { e_ppid := 0 } }

/-- A benign environment: every collaborator call succeeds. -/
def envBase : OsEnv :=
  { process := fun _ => Except.ok sampleRecord,
    pid_path := fun _ => Except.ok "/bin/heim",
    pid_cwd := fun _ => Except.ok "/root",
    task_info := fun _ => Except.ok { pti_total_user := 10,
                                      pti_total_system := 20,
                                      pti_resident_size := 30,
                                      pti_virtual_size := 40 },
    pids := [1, 2, 3],
    probe := fun _ => false,
    getpid := 42 }

/-- Environment whose path lookup always fails with permission denied. -/
def envDeniedPath : OsEnv :=
  { envBase with pid_path := fun _ => Except.error OsError.permissionDenied }

/-- Environment where every raw record fetch reports "no matching
record" and the existence probe finds no trace. -/
def envGone : OsEnv :=
  { envBase with process := fun _ => Except.error OsError.noSuchRecord }

/-- Environment whose raw record carries the unknown state code 7. -/
def envBadStat : OsEnv :=
  { envBase with
      process := fun _ =>
        Except.ok { sampleRecord with
                    kp_proc := { sampleRecord.kp_proc with p_stat := 7 } } }

/-- Environment where the record fetch fails for pid 2 only. -/
def envOneBad : OsEnv :=
  { envBase with
      process := fun pid =>
        if pid = 2 then Except.error OsError.permissionDenied
        else Except.ok sampleRecord }

/-- Environment whose raw record has an unpopulated (all-zero) start-time
field. -/
def envZeroStart : OsEnv :=
  { envBase with process := fun _ => Except.ok zeroRecord }

/-! Helper lemmas shared by several results. -/

/-- A handle constructed by `get` carries exactly the requested pid. -/
theorem get_pid_eq (env : OsEnv) (pid : Pid) (p : Process)
    (h : get env pid = Except.ok p) : p.pid = pid := by
  cases hfetch : env.process pid with
  | ok k =>
      simp only [get, hfetch, Except.ok.injEq] at h
      rw [← h]
  | error e =>
      simp only [get, hfetch] at h
      exact Except.noConfusion h

/-- `processes` yields one item per enumerated pid. -/
theorem processes_length (env : OsEnv) :
    (processes env).length = env.pids.length := by
  simp [processes]

/-- The i-th item of `processes` is `get` applied to the i-th pid. -/
theorem processes_get (env : OsEnv) (i : Nat) (hi : i < env.pids.length)
    (hi2 : i < (processes env).length) :
    (processes env).get ⟨i, hi2⟩ = get env (env.pids.get ⟨i, hi⟩) := by
  simp only [processes, List.get_eq_getElem, List.getElem_map]

/-! Claim theorems. -/

/-- C1, counterexample: the claim says `exe()` on a handle with
`pid == 0` fails with `AccessDenied(0)` regardless of the outcome of the
path-lookup call, the call not being attempted at all.  In the source the
lookup is attempted first and the `pid == 0` guard sits only on the
`Err` arm, so in an environment whose path lookup succeeds, `exe()` on
the pid-0 handle returns the looked-up path instead of failing. -/
theorem exe_pid0_claim_false :
    Process.exe envBase { pid := 0, create_time := 0 } =
      Except.ok "/bin/heim" ∧
    Process.exe envBase { pid := 0, create_time := 0 } ≠
      Except.error (ProcessError.AccessDenied 0) :=
  ⟨rfl, fun h => Except.noConfusion h⟩

/-- C1, amended: for every handle with `pid == 0`, whenever the
path-lookup OS call fails (with any error), `exe()` fails with
`AccessDenied(0)` without consulting the classifier; the call is
attempted first, and if it succeeds its path is returned. -/
theorem exe_pid0_access_denied_on_failure (env : OsEnv) (self : Process)
    (hpid : self.pid = 0) (e : OsError)
    (hcall : env.pid_path self.pid = Except.error e) :
    Process.exe env self = Except.error (ProcessError.AccessDenied 0) := by
  rw [hpid] at hcall
  simp [Process.exe, hpid, hcall]

/-- Witness for C1 at pid 0 under an always-denying path lookup. -/
theorem exe_pid0_access_denied_witness :
    Process.exe envDeniedPath { pid := 0, create_time := 0 } =
      Except.error (ProcessError.AccessDenied 0) :=
  exe_pid0_access_denied_on_failure envDeniedPath
    { pid := 0, create_time := 0 } rfl OsError.permissionDenied rfl

/-- C2: `pid()` returns the pid stored at construction and
`create_time()` returns `Ok` of the timestamp captured once, at
construction by `get`, from the raw record's start-time field; both
accessors take no collaborator environment (no OS call) and
`create_time()` is always `Ok` (infallible). -/
theorem pid_create_time_pure (env : OsEnv) (pid : Pid) (k : KinfoProc)
    (p : Process) (hfetch : env.process pid = Except.ok k)
    (hget : get env pid = Except.ok p) :
    Process.pid_acc p = pid ∧
    Process.create_time_acc p =
      Except.ok k.kp_proc.p_starttime.into_time := by
  simp only [get, hfetch, Except.ok.injEq] at hget
  rw [← hget]
  exact ⟨rfl, rfl⟩

/-- Witness for C2 over the benign environment. -/
theorem pid_create_time_pure_witness :
    Process.pid_acc { pid := 1, create_time := sampleTime } = 1 ∧
    Process.create_time_acc { pid := 1, create_time := sampleTime } =
      Except.ok sampleRecord.kp_proc.p_starttime.into_time :=
  pid_create_time_pure envBase 1 sampleRecord
    { pid := 1, create_time := sampleTime } rfl rfl

/-- C3: for a pid absent from the enumerator's pid set, when the raw
record fetch reports "no matching record" and the secondary existence
probe finds no trace, `get(pid)` fails with `NoSuchProcess(pid)` (not
`ZombieProcess`, not `Other`). -/
theorem get_no_such_process (env : OsEnv) (pid : Pid)
    (_hmem : pid ∉ env.pids)
    (hfetch : env.process pid = Except.error OsError.noSuchRecord)
    (hprobe : env.probe pid = false) :
    get env pid = Except.error (ProcessError.NoSuchProcess pid) := by
  simp [get, hfetch, catch_zombie, hprobe]

/-- Witness for C3 at pid 99 under the vanished-process environment. -/
theorem get_no_such_process_witness :
    (99 : Pid) ∉ envGone.pids ∧
    get envGone 99 = Except.error (ProcessError.NoSuchProcess 99) :=
  ⟨by decide, get_no_such_process envGone 99 (by decide) rfl rfl⟩

/-- C4: when the raw record fetch succeeds but the record's
process-state field is outside the known closed enumeration (i.e.
`Status::try_from` rejects it), `status()` fails with
`Incompatible(pid)`; it never coerces the unrecognized value to a
state. -/
theorem status_incompatible (env : OsEnv) (self : Process)
    (k : KinfoProc) (v : Nat)
    (hfetch : env.process self.pid = Except.ok k)
    (hstat : Status.try_from k.kp_proc.p_stat = Except.error v) :
    Process.status env self =
      Except.error (ProcessError.Incompatible self.pid) := by
  simp [Process.status, hfetch, hstat]

/-- Witness for C4 at the unknown raw state code 7. -/
theorem status_incompatible_witness :
    Process.status envBadStat { pid := 2, create_time := 0 } =
      Except.error (ProcessError.Incompatible 2) :=
  status_incompatible envBadStat { pid := 2, create_time := 0 }
    { sampleRecord with
      kp_proc := { sampleRecord.kp_proc with p_stat := 7 } } 7 rfl rfl

/-- C5: `processes()` yields exactly one item per enumerated pid; a pid
whose `get` fails contributes an `Err` item at its own position, while
every other position still carries the outcome of `get` for its own pid
— no abort of the remaining sequence. -/
theorem processes_item_independence (env : OsEnv) (i j : Nat)
    (hi : i < env.pids.length) (hj : j < env.pids.length)
    (e : ProcessError)
    (hfail : get env (env.pids.get ⟨j, hj⟩) = Except.error e)
    (hi2 : i < (processes env).length)
    (hj2 : j < (processes env).length) :
    (processes env).length = env.pids.length ∧
    (processes env).get ⟨j, hj2⟩ = Except.error e ∧
    (processes env).get ⟨i, hi2⟩ = get env (env.pids.get ⟨i, hi⟩) :=
  ⟨processes_length env, (processes_get env j hj hj2).trans hfail,
    processes_get env i hi hi2⟩

/-- Witness for C5: pid 2 (position 1) fails while position 0 still
holds the outcome of `get` for pid 1. -/
theorem processes_item_independence_witness :
    (processes envOneBad).length = envOneBad.pids.length ∧
    (processes envOneBad).get ⟨1, by decide⟩ =
      Except.error (ProcessError.AccessDenied 2) ∧
    (processes envOneBad).get ⟨0, by decide⟩ =
      get envOneBad (envOneBad.pids.get ⟨0, by decide⟩) :=
  processes_item_independence envOneBad 0 1 (by decide) (by decide)
    (ProcessError.AccessDenied 2) rfl (by decide) (by decide)

/-- C6: `current()` delegates to `get` on the pid returned by the OS
self-identification call, so a successful `current()` returns a handle
whose `pid()` equals the caller's own process identifier. -/
theorem current_pid_is_self (env : OsEnv) (p : Process)
    (h : current env = Except.ok p) :
    current env = get env env.getpid ∧ Process.pid_acc p = env.getpid :=
  ⟨rfl, get_pid_eq env env.getpid p h⟩

/-- Witness for C6 over the benign environment (self pid 42). -/
theorem current_pid_is_self_witness :
    current envBase = get envBase envBase.getpid ∧
    Process.pid_acc { pid := 42, create_time := sampleTime } =
      envBase.getpid :=
  current_pid_is_self envBase { pid := 42, create_time := sampleTime } rfl

/-- C7: whenever the raw record fetch succeeds, `name()` succeeds and
returns the lossy text decoding of the NUL-terminated short-name buffer
(total on any byte content, substituting the replacement character for
invalid sequences); `name()` fails only when the fetch itself fails, and
then its error is exactly the classifier's result. -/
theorem name_total_characterization (env : OsEnv) (self : Process) :
    (∃ k, env.process self.pid = Except.ok k ∧
        Process.name env self =
          Except.ok (utf8_lossy (cstr_from_buf k.kp_proc.p_comm))) ∨
    (∃ e, env.process self.pid = Except.error e ∧
        Process.name env self =
          Except.error (catch_zombie env e self.pid)) := by
  cases hfetch : env.process self.pid with
  | ok k => exact Or.inl ⟨k, rfl, by simp [Process.name, hfetch]⟩
  | error e => exact Or.inr ⟨e, rfl, by simp [Process.name, hfetch]⟩

/-- C8: `cpu_time()` and `memory()` issue the same raw task-accounting
fetch, so for fixed collaborator behaviour one succeeds exactly when the
other does, and they fail with the identically classified error. -/
theorem cpu_time_memory_fail_together (env : OsEnv) (self : Process) :
    ((∃ v, Process.cpu_time env self = Except.ok v) ↔
      (∃ m, Process.memory env self = Except.ok m)) ∧
    ∀ e, Process.cpu_time env self = Except.error e ↔
      Process.memory env self = Except.error e := by
  cases hti : env.task_info self.pid with
  | ok t =>
      refine ⟨?_, fun e => ?_⟩ <;>
        simp [Process.cpu_time, Process.memory, hti]
  | error e0 =>
      refine ⟨?_, fun e => ?_⟩ <;>
        simp [Process.cpu_time, Process.memory, hti]

/-- C9: `get(pid)` succeeds whenever the raw record fetch succeeds,
capturing whatever value the start-time field holds — a zero,
unpopulated field included — with no validation and no constructor
failure. -/
theorem get_accepts_any_start_time (env : OsEnv) (pid : Pid)
    (k : KinfoProc) (hfetch : env.process pid = Except.ok k) :
    get env pid =
      Except.ok { pid := pid,
                  create_time := k.kp_proc.p_starttime.into_time } := by
  simp [get, hfetch]

/-- Witness for C9: construction succeeds on the all-zero start-time
record, pinning a zero timestamp. -/
theorem get_accepts_any_start_time_witness :
    get envZeroStart 7 = Except.ok { pid := 7, create_time := 0 } :=
  get_accepts_any_start_time envZeroStart 7 zeroRecord rfl

/-- C10: `processes()` preserves enumeration order one-to-one — the i-th
yielded item is exactly the outcome of `get` on the i-th enumerated pid,
and a successful i-th item carries that pid. -/
theorem processes_preserves_order (env : OsEnv) (i : Nat)
    (hi : i < env.pids.length) (hi2 : i < (processes env).length)
    (p : Process)
    (hp : (processes env).get ⟨i, hi2⟩ = Except.ok p) :
    (processes env).get ⟨i, hi2⟩ = get env (env.pids.get ⟨i, hi⟩) ∧
    p.pid = env.pids.get ⟨i, hi⟩ := by
  have h1 := processes_get env i hi hi2
  rw [h1] at hp
  exact ⟨h1, get_pid_eq env _ p hp⟩

/-- Witness for C10 at position 2 (pid 3) of the benign enumeration. -/
theorem processes_preserves_order_witness :
    (processes envBase).get ⟨2, by decide⟩ =
      get envBase (envBase.pids.get ⟨2, by decide⟩) ∧
    Process.pid { pid := 3, create_time := sampleTime } =
      envBase.pids.get ⟨2, by decide⟩ :=
  processes_preserves_order envBase 2 (by decide) (by decide)
    { pid := 3, create_time := sampleTime } rfl

end Heim
